import Mathlib

/-!
Verification development for a document-intake bot that extracts KTP/NPWP
identity data from images, lets the user confirm or edit the fields, checks
for duplicates and persists rows to a spreadsheet plus an archived file.

The definitions below are a shallow embedding of the Python sources:
  * `models/document.py`   (DocumentData and its derived fields)
  * `models/session.py`    (UserSession, SessionManager, transition table)
  * `core/validators.py`   (DocumentValidator field validators)
  * `services/ai_service.py`     (numeric repair, retry loop, response parse)
  * `services/google_service.py` (save_photo_and_data orchestration)
  * `handlers/base.py`, `handlers/messages.py` (session state dict, edit flow)

Conventions: wall-clock instants are natural numbers in abstract units;
`datetime.isoformat` round-tripping is modelled as the identity on those
numbers.  Python strings are Lean `String`s; character classes are the ASCII
ones (the source data is ASCII digits and Latin text).  Fallible Python code
(raised exceptions) is modelled with `Option` / `Except` / explicit outcome
types.
-/

namespace NpwpBot

/-! ### Python string primitives -/

/-- Character class of Python `str.strip()` / regex `\s`:
space, tab, newline, carriage return, vertical tab, form feed. -/
def isPySpace (c : Char) : Bool :=
  c == ' ' || c == '\t' || c == '\n' || c == '\r' ||
  c == Char.ofNat 11 || c == Char.ofNat 12

/-- Python `str.strip()` on a character list. -/
def stripL (l : List Char) : List Char :=
  ((l.dropWhile isPySpace).reverse.dropWhile isPySpace).reverse

/-- Python `str.strip()`. -/
def pyStrip (s : String) : String := ⟨stripL s.data⟩

/-- Python `re.sub(r'\D', '', s)` / `filter(str.isdigit, s)` on a list. -/
def filterDigitsL (l : List Char) : List Char := l.filter Char.isDigit

/-- Python `re.sub(r'\D', '', s)`: keep only digits. -/
def filterDigits (s : String) : String := ⟨filterDigitsL s.data⟩

/-- Numeric value of a digit character. -/
def digitVal (c : Char) : Nat := c.toNat - 48

/-- Value of a digit string read in base 10. -/
def digitsValL (l : List Char) : Nat :=
  l.foldl (fun acc c => acc * 10 + digitVal c) 0

/-- Python `int(s)` restricted to the digit-only inputs that occur here:
succeeds exactly on nonempty all-digit strings (anything else raises
`ValueError` in the source, modelled as `none`). -/
def parseIntL (l : List Char) : Option Nat :=
  if l ≠ [] ∧ l.all Char.isDigit then some (digitsValL l) else none

/-- Python ASCII `str.lower()` on a list. -/
def pyLowerL (l : List Char) : List Char := l.map Char.toLower

/-- Python ASCII `str.upper()`. -/
def pyUpper (s : String) : String := ⟨s.data.map Char.toUpper⟩

/-- Truthiness of an optional Python string: present and nonempty. -/
def truthyStr (o : Option String) : Bool :=
  match o with
  | none => false
  | some s => s ≠ ""

/-! ### Document model (`models/document.py`) -/

/-- Enum `DocumentType`. -/
inductive DocumentType where
  | KTP
  | NPWP
deriving DecidableEq, Repr

/-- Value of `DocumentType` members. -/
def DocumentType.value : DocumentType → String
  | .KTP => "KTP"
  | .NPWP => "NPWP"

/-- Enum `NPWPType`. -/
inductive NPWPType where
  | personal
  | company
deriving DecidableEq, Repr

/-- Value of `NPWPType` members. -/
def NPWPType.value : NPWPType → String
  | .personal => "personal"
  | .company => "company"

/-- Dataclass `DocumentData`.  `extraction_timestamp` is an abstract instant;
`confidence_score` is carried opaquely (the source never computes with it). -/
structure DocumentData where
  document_type : DocumentType
  nama : String
  alamat : Option String
  nik : Option String
  npwp_15 : Option String
  npwp_16 : Option String
  npwp_type : Option NPWPType
  confidence_score : Option Int
  extraction_timestamp : Nat
  ai_service_used : Option String
deriving DecidableEq, Repr

/-- Static method `DocumentData._clean_number`. -/
def cleanNumber (s : String) : String :=
  if s = "" then "" else filterDigits s

/-- Cleanup `__post_init__` applies to an optional numeric field:
cleaned only when truthy. -/
def pyCleanOptNumber (o : Option String) : Option String :=
  match o with
  | none => none
  | some s => if s = "" then some s else some (cleanNumber s)

/-- Cleanup `__post_init__` applies to an optional text field:
stripped only when truthy. -/
def pyCleanOptText (o : Option String) : Option String :=
  match o with
  | none => none
  | some s => if s = "" then some s else some (pyStrip s)

/-- Construction of a `DocumentData`, i.e. the dataclass constructor followed
by `__post_init__` (digit-cleaning the numeric fields, stripping the text
fields, each only when truthy). -/
def mkDocumentData (dt : DocumentType) (nama : String)
    (alamat nik npwp_15 npwp_16 : Option String) (npwp_type : Option NPWPType)
    (confidence_score : Option Int) (ts : Nat) (ai : Option String) :
    DocumentData :=
  { document_type := dt
    nama := if nama = "" then nama else pyStrip nama
    alamat := pyCleanOptText alamat
    nik := pyCleanOptNumber nik
    npwp_15 := pyCleanOptNumber npwp_15
    npwp_16 := pyCleanOptNumber npwp_16
    npwp_type := npwp_type
    confidence_score := confidence_score
    extraction_timestamp := ts
    ai_service_used := ai }

/-- Property `DocumentData.id_tku`: `"0" + npwp_15 + "000000"` for company
NPWP documents with a truthy `npwp_15`, otherwise the empty string. -/
def DocumentData.id_tku (d : DocumentData) : String :=
  if d.document_type = .NPWP ∧ d.npwp_type = some .company ∧ truthyStr d.npwp_15
  then "0" ++ d.npwp_15.getD "" ++ "000000"
  else ""

/-- Property `DocumentData.primary_id`.  For NPWP, Python
`self.npwp_16 or self.nik` yields `npwp_16` when truthy, else `nik`. -/
def DocumentData.primary_id (d : DocumentData) : Option String :=
  match d.document_type with
  | .KTP => d.nik
  | .NPWP => if truthyStr d.npwp_16 then d.npwp_16 else d.nik

/-- Method `DocumentData.get_duplicate_check_values`: the non-empty
(truthy) candidates among `npwp_15`, `primary_id` and `id_tku`. -/
def DocumentData.get_duplicate_check_values (d : DocumentData) : List String :=
  (if truthyStr d.npwp_15 then [d.npwp_15.getD ""] else []) ++
  (if truthyStr d.primary_id then [d.primary_id.getD ""] else []) ++
  (if d.id_tku ≠ "" then [d.id_tku] else [])

/-- Method `DocumentData.to_sheet_row`: spreadsheet columns A through J. -/
def DocumentData.to_sheet_row (d : DocumentData) (nama_toko : String) :
    List String :=
  let isCompanyNpwp := d.document_type = .NPWP ∧ d.npwp_type = some .company
  [ d.document_type.value,
    nama_toko,
    "",
    (if isCompanyNpwp then "TIN" else ""),
    (if isCompanyNpwp then "-" else ""),
    (if truthyStr d.npwp_15 then d.npwp_15.getD "" else ""),
    (if truthyStr d.primary_id then d.primary_id.getD "" else ""),
    d.id_tku,
    d.nama,
    (if truthyStr d.alamat then d.alamat.getD "" else "") ]

/-- The dictionary produced by `DocumentData.to_dict` (enum members replaced
by their values, the timestamp serialised; `isoformat` round-trips exactly,
so the serialised timestamp is the same abstract instant). -/
structure DocDict where
  document_type : String
  nama : String
  alamat : Option String
  nik : Option String
  npwp_15 : Option String
  npwp_16 : Option String
  npwp_type : Option String
  id_tku : String
  primary_id : Option String
  confidence_score : Option Int
  extraction_timestamp : Nat
  ai_service_used : Option String
deriving DecidableEq, Repr

/-- Method `DocumentData.to_dict`. -/
def DocumentData.to_dict (d : DocumentData) : DocDict :=
  { document_type := d.document_type.value
    nama := d.nama
    alamat := d.alamat
    nik := d.nik
    npwp_15 := d.npwp_15
    npwp_16 := d.npwp_16
    npwp_type := d.npwp_type.map NPWPType.value
    id_tku := d.id_tku
    primary_id := d.primary_id
    confidence_score := d.confidence_score
    extraction_timestamp := d.extraction_timestamp
    ai_service_used := d.ai_service_used }

/-- Python `DocumentType(value)`: raises `ValueError` off the enum. -/
def documentTypeOfValue (s : String) : Option DocumentType :=
  if s = "KTP" then some .KTP
  else if s = "NPWP" then some .NPWP
  else none

/-- Python `NPWPType(value)`: raises `ValueError` off the enum. -/
def npwpTypeOfValue (s : String) : Option NPWPType :=
  if s = "personal" then some .personal
  else if s = "company" then some .company
  else none

/-- Classmethod `DocumentData.from_dict`.  A `ValueError` from an enum
conversion propagates (`none`); the timestamp parse of an `isoformat`
output always succeeds.  The returned object again runs `__post_init__`,
hence the use of `mkDocumentData`. -/
def DocumentData.from_dict (data : DocDict) : Option DocumentData :=
  match documentTypeOfValue data.document_type with
  | none => none
  | some doc_type =>
    match data.npwp_type with
    | none =>
        some (mkDocumentData doc_type data.nama data.alamat data.nik
          data.npwp_15 data.npwp_16 none data.confidence_score
          data.extraction_timestamp data.ai_service_used)
    | some v =>
        if v = "" then
          some (mkDocumentData doc_type data.nama data.alamat data.nik
            data.npwp_15 data.npwp_16 none data.confidence_score
            data.extraction_timestamp data.ai_service_used)
        else
          match npwpTypeOfValue v with
          | none => none
          | some nt =>
              some (mkDocumentData doc_type data.nama data.alamat data.nik
                data.npwp_15 data.npwp_16 (some nt) data.confidence_score
                data.extraction_timestamp data.ai_service_used)

/-! ### Field validators (`core/validators.py`, class `DocumentValidator`) -/

/-- Whitelist of Indonesian province codes
(`DocumentValidator._is_valid_province_code`). -/
def province_codes : List String :=
  ["11", "12", "13", "14", "15", "16", "17", "18", "19",
   "21", "22", "23", "24", "25", "26",
   "31", "32", "33", "34", "35", "36",
   "51", "52", "53",
   "61", "62", "63", "64", "65",
   "71", "72", "73", "74", "75", "76",
   "81", "82",
   "91", "92", "93", "94"]

/-- Static method `DocumentValidator._is_valid_province_code`. -/
def isValidProvinceCode (code : String) : Bool :=
  province_codes.contains code

/-- Static method `DocumentValidator._is_valid_nik_date` (DDMMYY, day offset
by 40 for female-coded entries, two-digit year mapped with threshold 50,
resulting year not in the future).  `current_year` stands for
`datetime.now().year`. -/
def isValidNikDate (date_str : String) (current_year : Nat) : Bool :=
  let l := date_str.data
  if l.length ≠ 6 then false
  else
    match parseIntL (l.take 2), parseIntL ((l.drop 2).take 2),
        parseIntL (l.drop 4) with
    | some day0, some month, some year =>
        let day := if day0 > 40 then day0 - 40 else day0
        if ¬ (1 ≤ day ∧ day ≤ 31) then false
        else if ¬ (1 ≤ month ∧ month ≤ 12) then false
        else
          let full_year := if year > 50 then 1900 + year else 2000 + year
          if full_year > current_year ∨ full_year < 1900 then false
          else true
    | _, _, _ => false

/-- Static method `DocumentValidator.validate_nik`.  Returns the
`(is_valid, error_message)` pair of the source. -/
def validate_nik (nik : String) (current_year : Nat) : Bool × Option String :=
  if nik = "" then (false, some "NIK tidak boleh kosong")
  else
    let clean_nik := filterDigitsL nik.data
    if clean_nik.length ≠ 16 then
      (false, some ("NIK harus 16 digit, ditemukan " ++
        toString clean_nik.length ++ " digit"))
    else if ¬ clean_nik.all Char.isDigit then
      (false, some "NIK harus berisi 16 digit angka")
    else if clean_nik = List.replicate 16 '0' then
      (false, some "NIK tidak valid (semua angka nol)")
    else if clean_nik = List.replicate 16 '1' then
      (false, some "NIK tidak valid (semua angka sama)")
    else if ¬ isValidProvinceCode ⟨clean_nik.take 2⟩ then
      (false, some ("Kode provinsi tidak valid: " ++
        String.mk (clean_nik.take 2)))
    else if ¬ isValidNikDate ⟨(clean_nik.drop 6).take 6⟩ current_year then
      (false, some "Format tanggal lahir dalam NIK tidak valid")
    else (true, none)

/-- Python `re.sub(r'[.\-\s]', '', s)`: drop dots, dashes and whitespace. -/
def stripFormattingL (l : List Char) : List Char :=
  l.filter (fun c => ¬ (c = '.' ∨ c = '-' ∨ isPySpace c = true))

/-- Static method `DocumentValidator.validate_npwp_15`. -/
def validate_npwp_15 (npwp : String) : Bool × Option String :=
  if npwp = "" then (false, some "NPWP tidak boleh kosong")
  else
    let clean := stripFormattingL npwp.data
    if clean.length ≠ 15 then
      (false, some ("NPWP harus 15 digit, ditemukan " ++
        toString clean.length ++ " digit"))
    else if ¬ clean.all Char.isDigit then
      (false, some "NPWP harus berisi 15 digit angka")
    else if clean = List.replicate 15 '0' then
      (false, some "NPWP tidak valid (semua angka nol)")
    else (true, none)

/-- Static method `DocumentValidator.validate_npwp_16`. -/
def validate_npwp_16 (npwp : String) : Bool × Option String :=
  if npwp = "" then (false, some "NPWP tidak boleh kosong")
  else
    let clean := stripFormattingL npwp.data
    if clean.length ≠ 16 then
      (false, some ("NPWP harus 16 digit, ditemukan " ++
        toString clean.length ++ " digit"))
    else if ¬ clean.all Char.isDigit then
      (false, some "NPWP harus berisi 16 digit angka")
    else if clean = List.replicate 16 '0' then
      (false, some "NPWP tidak valid (semua angka nol)")
    else (true, none)

/-- Python regex `\w` for the ASCII data handled here. -/
def isWordChar (c : Char) : Bool := c.isAlpha || c.isDigit || c == '_'

/-- Static method `DocumentValidator.validate_nama`. -/
def validate_nama (nama0 : String) : Bool × Option String :=
  if pyStrip nama0 = "" then (false, some "Nama tidak boleh kosong")
  else
    let nama := pyStrip nama0
    let l := nama.data
    if l.length < 2 then
      (false, some "Nama terlalu pendek (minimum 2 karakter)")
    else if l.length > 100 then
      (false, some "Nama terlalu panjang (maksimum 100 karakter)")
    else if l.all (fun c => c.isDigit || ¬ isWordChar c) then
      (false, some "Nama tidak valid (hanya berisi angka atau simbol)")
    else if ["test", "testing", "admin", "user", "null",
        "undefined"].contains ⟨pyLowerL l⟩ then
      (false, some ("Nama \x27" ++ nama ++ "\x27 tidak diperbolehkan"))
    else if (pyLowerL (l.filter (fun c => c ≠ ' '))).dedup.length < 2 then
      (false, some "Nama tidak valid (karakter berulang)")
    else (true, none)

/-- Python substring containment `pat in s` on character lists. -/
def containsSub (pat l : List Char) : Bool :=
  l.tails.any (fun t => pat.isPrefixOf t)

/-- Locality components searched for by `validate_alamat`. -/
def alamat_components : List (List Char) :=
  [['r', 't'], ['r', 'w'], ['k', 'e', 'l'], ['k', 'e', 'c'],
   ['k', 'a', 'b'], ['k', 'o', 't'], ['p', 'r', 'o', 'v']]

/-- Static method `DocumentValidator.validate_alamat`. -/
def validate_alamat (alamat0 : String) : Bool × Option String :=
  if pyStrip alamat0 = "" then (false, some "Alamat tidak boleh kosong")
  else
    let alamat := pyStrip alamat0
    let l := alamat.data
    if l.length < 10 then
      (false, some "Alamat terlalu pendek (minimum 10 karakter)")
    else if l.length > 500 then
      (false, some "Alamat terlalu panjang (maksimum 500 karakter)")
    else
      let lower := pyLowerL l
      let cnt := (alamat_components.filter (fun c => containsSub c lower)).length
      if cnt < 2 then
        (false, some "Alamat harus mencakup minimal RT/RW, Kelurahan, dan Kecamatan")
      else (true, none)

/-! ### Numeric repair and response parse (`services/ai_service.py`) -/

/-- Method `AIService._clean_and_validate_number`: clean a raw optional field
to digits and repair common off-by-one length errors.  `none` models both a
missing/falsy input and a rejected field (set to null, no exception). -/
def clean_and_validate_number (number_str : Option String)
    (expected_length : Nat) : Option String :=
  match number_str with
  | none => none
  | some s =>
    if s = "" then none
    else
      let cleaned := filterDigitsL s.data
      if cleaned.isEmpty then none
      else if expected_length = 15 then
        if cleaned.length = 15 then some ⟨cleaned⟩
        else if cleaned.length = 16 ∧ cleaned.head? = some '0' then
          some ⟨cleaned.tail⟩
        else none
      else if expected_length = 16 then
        if cleaned.length = 16 then some ⟨cleaned⟩
        else if cleaned.length = 15 then some ⟨'0' :: cleaned⟩
        else none
      else if cleaned.length ≠ expected_length then none
      else some ⟨cleaned⟩

/-- The JSON-like map returned by the recognition call, with the keys the
extraction prompt requests (absent keys are `none`). -/
structure RawResponse where
  document_type : Option String
  nama : Option String
  nik : Option String
  npwp_15 : Option String
  npwp_16 : Option String
  alamat : Option String
deriving DecidableEq, Repr

/-- Method `AIService._parse_ai_response`: `ts` stands for the
`datetime.now()` default timestamp of the constructed dataclass. -/
def parse_ai_response (raw : RawResponse) (ts : Nat) :
    Except String DocumentData :=
  match raw.document_type with
  | none => .error "Missing document_type in AI response"
  | some dt_raw =>
    match raw.nama with
    | none => .error "Missing nama in AI response"
    | some nama_raw =>
      let doc_type_str := pyStrip (pyUpper dt_raw)
      if doc_type_str = "KTP" ∨ doc_type_str = "NPWP" then
        let doc_type := if doc_type_str = "KTP" then DocumentType.KTP
          else DocumentType.NPWP
        let nik := if doc_type = .KTP then
            clean_and_validate_number raw.nik 16 else none
        let npwp_15 := if doc_type = .NPWP then
            clean_and_validate_number raw.npwp_15 15 else none
        let npwp_16 := if doc_type = .NPWP then
            clean_and_validate_number raw.npwp_16 16 else none
        let nama := pyStrip nama_raw
        let alamat := if truthyStr raw.alamat then
            some (pyStrip (raw.alamat.getD "")) else none
        if nama = "" then .error "Empty nama in AI response"
        else .ok (mkDocumentData doc_type nama alamat nik npwp_15 npwp_16
          none none ts none)
      else .error ("Invalid document type: " ++ doc_type_str)

/-! ### Extraction retry loop (`AIService.extract_document_data`) -/

/-- Outcome of one attempt of the extraction body: a successful parse, a
`RateLimitError`, an `AuthenticationError`, or any other exception. -/
inductive Attempt where
  | success
  | rateLimit
  | authErr
  | otherErr
deriving DecidableEq, Repr

/-- Observable result of the retry loop: which exception (if any) escapes,
how many attempts ran, and the sequence of `asyncio.sleep` durations in
seconds. -/
inductive ExtractOutcome where
  | ok (attempts : Nat) (sleeps : List Nat)
  | raisedRateLimit (attempts : Nat) (sleeps : List Nat)
  | raisedAuth (attempts : Nat) (sleeps : List Nat)
  | raisedAIProcessing (ai_service : String) (attempts : Nat) (sleeps : List Nat)
  | returnedNone (attempts : Nat) (sleeps : List Nat)
deriving DecidableEq, Repr

/-- Discriminator: did the loop raise `AIProcessingError`?
(`RateLimitError` and `AuthenticationError` are sibling subclasses of
`BotException`, not of `AIProcessingError`.) -/
def ExtractOutcome.isAIProcessingRaise : ExtractOutcome → Bool
  | .raisedAIProcessing _ _ _ => true
  | _ => false

/-- One `for attempt in range(max_retries)` loop of
`AIService.extract_document_data`, with `fuel = max_retries - attempt`
remaining iterations.  The `attempt < max_retries - 1` guards of the source
become `fuel ≠ 1`, i.e. the successor pattern with `fuel = 0`. -/
def extractGo (provider : String) (f : Nat → Attempt) :
    Nat → Nat → Nat → List Nat → ExtractOutcome
  | 0, _, attempts, sleeps => .returnedNone attempts sleeps.reverse
  | fuel + 1, attempt, attempts, sleeps =>
    match f attempt with
    | .success => .ok (attempts + 1) sleeps.reverse
    | .authErr => .raisedAuth (attempts + 1) sleeps.reverse
    | .rateLimit =>
      if fuel = 0 then .raisedRateLimit (attempts + 1) sleeps.reverse
      else extractGo provider f fuel (attempt + 1) (attempts + 1)
        ((2 ^ attempt * 5) :: sleeps)
    | .otherErr =>
      if fuel = 0 then .raisedAIProcessing provider (attempts + 1) sleeps.reverse
      else extractGo provider f fuel (attempt + 1) (attempts + 1) (2 :: sleeps)

/-- Method `AIService.extract_document_data` with its default
`max_retries`: `provider` is `settings.ACTIVE_AI_SERVICE`, and `f n` is the
outcome of the body on attempt `n` (zero-based). -/
def extract_document_data (provider : String) (f : Nat → Attempt)
    (max_retries : Nat) : ExtractOutcome :=
  extractGo provider f max_retries 0 0 []

/-- Sleep the source schedules after a failed, retried attempt `i`:
`(2 ** i) * 5` seconds after a rate limit, a fixed 2 seconds otherwise. -/
def waitFor (a : Attempt) (i : Nat) : Nat :=
  match a with
  | .rateLimit => 2 ^ i * 5
  | _ => 2

/-- Specification-side unrolling of the retry policy for the default three
attempts, used to state the corrected retry claim. -/
def extractSpec (provider : String) (f : Nat → Attempt) : ExtractOutcome :=
  match f 0 with
  | .success => .ok 1 []
  | .authErr => .raisedAuth 1 []
  | a0 =>
    match f 1 with
    | .success => .ok 2 [waitFor a0 0]
    | .authErr => .raisedAuth 2 [waitFor a0 0]
    | a1 =>
      match f 2 with
      | .success => .ok 3 [waitFor a0 0, waitFor a1 1]
      | .authErr => .raisedAuth 3 [waitFor a0 0, waitFor a1 1]
      | .rateLimit => .raisedRateLimit 3 [waitFor a0 0, waitFor a1 1]
      | .otherErr =>
          .raisedAIProcessing provider 3 [waitFor a0 0, waitFor a1 1]

/-! ### Session model (`models/session.py`) -/

/-- Enum `SessionState`. -/
inductive SessionState where
  | idle
  | awaiting_branch
  | awaiting_npwp_type
  | awaiting_confirmation
  | awaiting_edit_input
  | awaiting_pdf_name
  | awaiting_branch_edit
  | selecting_edit_field
  | awaiting_duplicate_confirmation
  | processing_ai
  | saving_data
deriving DecidableEq, Repr

/-- Enum `WorkflowType`. -/
inductive WorkflowType where
  | photo
  | pdf
deriving DecidableEq, Repr

/-- The `valid_transitions` table of `UserSession.can_transition_to`. -/
def valid_transitions : SessionState → List SessionState
  | .idle => [.awaiting_branch]
  | .awaiting_branch =>
      [.awaiting_npwp_type, .awaiting_confirmation, .awaiting_pdf_name,
       .processing_ai, .idle]
  | .processing_ai => [.awaiting_npwp_type, .awaiting_confirmation, .idle]
  | .awaiting_npwp_type => [.awaiting_confirmation, .idle]
  | .awaiting_confirmation =>
      [.selecting_edit_field, .awaiting_duplicate_confirmation,
       .saving_data, .idle]
  | .selecting_edit_field =>
      [.awaiting_edit_input, .awaiting_branch_edit, .awaiting_confirmation,
       .idle]
  | .awaiting_edit_input => [.awaiting_confirmation, .idle]
  | .awaiting_branch_edit => [.awaiting_confirmation, .idle]
  | .awaiting_pdf_name => [.saving_data, .idle]
  | .awaiting_duplicate_confirmation => [.saving_data, .idle]
  | .saving_data => [.idle]

/-- Dataclass `UserSession`.  Instants (`created_at`, `last_activity`) are
abstract clock readings. -/
structure UserSession where
  user_id : Nat
  state : SessionState
  workflow_type : Option WorkflowType
  created_at : Nat
  last_activity : Nat
  file_id : Option String
  branch : Option String
  sheet_name : Option String
  nama_toko : Option String
  document_data : Option DocumentData
  extracted_data : List (String × String)
  npwp_type : Option String
  edit_field : Option String
  total_interactions : Nat
  error_count : Nat
deriving DecidableEq, Repr

/-- Method `UserSession.update_activity`, with `now` the current clock
reading (`datetime.now()`). -/
def UserSession.update_activity (s : UserSession) (now : Nat) : UserSession :=
  { s with last_activity := now,
           total_interactions := s.total_interactions + 1 }

/-- Construction of a fresh `UserSession(user_id=uid)`: dataclass defaults
followed by the `__post_init__` call of `update_activity`. -/
def mkUserSession (uid now : Nat) : UserSession :=
  UserSession.update_activity
    { user_id := uid
      state := .idle
      workflow_type := none
      created_at := now
      last_activity := now
      file_id := none
      branch := none
      sheet_name := none
      nama_toko := none
      document_data := none
      extracted_data := []
      npwp_type := none
      edit_field := none
      total_interactions := 0
      error_count := 0 } now

/-- Method `UserSession.is_expired`: idle time strictly above the configured
timeout (same abstract units as the clock). -/
def UserSession.is_expired (s : UserSession) (timeout now : Nat) : Bool :=
  now - s.last_activity > timeout

/-- Method `UserSession.set_state`. -/
def UserSession.set_state (s : UserSession) (new_state : SessionState)
    (now : Nat) : UserSession :=
  UserSession.update_activity { s with state := new_state } now

/-- Method `UserSession.set_workflow`. -/
def UserSession.set_workflow (s : UserSession) (w : WorkflowType)
    (now : Nat) : UserSession :=
  UserSession.set_state { s with workflow_type := some w } .awaiting_branch now

/-- Method `UserSession.clear_workflow_data` (does not touch
`last_activity`). -/
def UserSession.clear_workflow_data (s : UserSession) : UserSession :=
  { s with workflow_type := none
           file_id := none
           branch := none
           sheet_name := none
           nama_toko := none
           document_data := none
           extracted_data := []
           npwp_type := none
           edit_field := none
           state := .idle }

/-- Method `UserSession.reset_session`. -/
def UserSession.reset_session (s : UserSession) (now : Nat) : UserSession :=
  UserSession.update_activity
    { s.clear_workflow_data with
        total_interactions := 0
        error_count := 0
        created_at := now } now

/-- Method `UserSession.increment_error_count`. -/
def UserSession.increment_error_count (s : UserSession) (now : Nat) :
    UserSession :=
  UserSession.update_activity { s with error_count := s.error_count + 1 } now

/-- Method `UserSession.can_transition_to`: membership in the transition
table, with transitions to `idle` always allowed. -/
def UserSession.can_transition_to (s : UserSession)
    (new_state : SessionState) : Bool :=
  decide (new_state ∈ valid_transitions s.state) ||
    decide (new_state = SessionState.idle)

/-- The `SessionManager._sessions` map. -/
def SessionMap := Nat → Option UserSession

/-- Method `SessionManager.get_session`: create the session if absent, then
replace it with a fresh one if it is expired.  Returns the session handed to
the caller together with the updated map. -/
def getSession (sessions : SessionMap) (uid timeout now : Nat) :
    UserSession × SessionMap :=
  let stored := match sessions uid with
    | none => mkUserSession uid now
    | some s => s
  if stored.is_expired timeout now then
    let fresh := mkUserSession uid now
    (fresh, fun u => if u = uid then some fresh else sessions u)
  else
    (stored, fun u => if u = uid then some stored else sessions u)

/-! ### Handler session dictionary (`handlers/base.py`) -/

/-- The `context.user_data` dictionary as the handlers use it.  `state` is a
plain string there (absent key modelled as `none`); `last_activity` is the
timestamp key (absent before initialisation). -/
structure CtxData where
  state : Option String
  workflow_type : Option String
  edit_field : Option String
  extracted_data : List (String × String)
  document_data : Option DocumentData
  branch : Option String
  sheet_name : Option String
  nama_toko : Option String
  last_bot_message_id : Option Nat
  last_activity : Option Nat
deriving DecidableEq, Repr

/-- Result of `_clear_user_session`: `context.user_data.clear()`. -/
def clearedCtx : CtxData :=
  { state := none
    workflow_type := none
    edit_field := none
    extracted_data := []
    document_data := none
    branch := none
    sheet_name := none
    nama_toko := none
    last_bot_message_id := none
    last_activity := none }

/-- Method `BaseHandler._set_session_state`: stores the requested state
string unconditionally and refreshes the activity timestamp.  No transition
check is involved. -/
def setSessionState (ctx : CtxData) (state : String) (now : Nat) : CtxData :=
  { ctx with state := some state, last_activity := some now }

/-- Dictionary read `d.get(k)` over an association list. -/
def assocGet (l : List (String × String)) (k : String) : Option String :=
  match l with
  | [] => none
  | (k2, v) :: t => if k2 = k then some v else assocGet t k

/-- Dictionary write `d[k] = v` over an association list. -/
def assocSet (l : List (String × String)) (k v : String) :
    List (String × String) :=
  match l with
  | [] => [(k, v)]
  | (k2, v2) :: t =>
      if k2 = k then (k, v) :: t else (k2, v2) :: assocSet t k v

/-! ### Save orchestration (`services/google_service.py`) -/

/-- Outcome of one external Google API call: success, an `HttpError` with a
status code, or any other exception. -/
inductive ApiResult (α : Type) where
  | ok (val : α)
  | httpError (status : Nat)
  | exnFailure (msg : String)
deriving DecidableEq, Repr

/-- The external world a `save_photo_and_data` call runs against: the cell
values of duplicate-check columns F, G, H (or the failure of reading them),
and the outcomes of the append and upload calls. -/
structure SaveWorld where
  lookup_result : ApiResult (List String)
  append_result : ApiResult Unit
  upload_result : ApiResult Unit
deriving DecidableEq, Repr

/-- Status of the dictionary returned by `save_photo_and_data`. -/
inductive SaveStatus where
  | success
  | duplicate_found
  | error (msg : String)
deriving DecidableEq, Repr

/-- Discriminator for the error status. -/
def SaveStatus.isError : SaveStatus → Bool
  | .error _ => true
  | _ => false

/-- Observable effect of one `save_photo_and_data` call: the returned
status, the rows that were appended to the sheet, and whether the file
upload ran. -/
structure SaveOutcome where
  status : SaveStatus
  appended_rows : List (List String)
  uploaded : Bool
deriving DecidableEq, Repr

/-- Relevant user-session keys read by `save_photo_and_data`. -/
structure SaveInput where
  document_data : Option DocumentData
  branch : Option String
  nama_toko : String
  file_id : Option String
deriving Repr

/-- Branch codes of `config/constants.py` `FOLDER_MAP`. -/
def folder_map_keys : List String := ["BJ", "BJM", "SBY", "SMD-BPN", "SMG"]

/-- The `SHEET_NAME_MAP` of `config/constants.py`. -/
def sheet_name_map : List (String × String) :=
  [("BJ", "NPWPKTP BJ (NEW)"),
   ("SMG", "NPWPKTP BBN SMG (NEW)"),
   ("SBY", "NPWPKTP BBN SBY-BJM (NEW)"),
   ("BJM", "NPWPKTP BBN SBY-BJM (NEW)"),
   ("SMD-BPN", "NPWPKTP BBN SMD-BPP (NEW)")]

/-- Method `Settings.is_valid_branch`. -/
def is_valid_branch (b : String) : Bool :=
  folder_map_keys.contains b && (sheet_name_map.map Prod.fst).contains b

/-- Method `GoogleService._check_for_duplicates`.  An empty candidate list
returns `False` before any API call; a matching stripped cell in columns
F/G/H means a duplicate; an `HttpError` raises `GoogleServiceError`
(`Except.error`); any other exception is swallowed and treated as "no
duplicate" (the source deliberately allows saving on lookup failure). -/
def checkForDuplicates (sheet_name : String) (d : DocumentData)
    (api : ApiResult (List String)) : Except String Bool :=
  let check_values := d.get_duplicate_check_values
  if check_values.isEmpty then .ok false
  else
    match api with
    | .ok cells =>
        .ok (cells.any (fun c => check_values.contains (pyStrip c)))
    | .httpError status =>
        if status = 404 then .error ("Sheet not found: " ++ sheet_name)
        else .error "Error checking duplicates"
    | .exnFailure _ => .ok false

/-- Method `GoogleService.save_photo_and_data`: duplicate check (unless
bypassed), then the spreadsheet append, then the Drive upload (only when a
`file_id` is present).  Every raised `GoogleServiceError` is converted by
the outer handler into an `error` status carrying the message; an append
failure prevents the upload; an upload failure leaves the appended row in
place (no rollback). -/
def save_photo_and_data (input : SaveInput) (world : SaveWorld)
    (bypass_duplicate_check : Bool) : SaveOutcome :=
  match input.document_data with
  | none =>
      { status := .error "No document data found in user session"
        appended_rows := []
        uploaded := false }
  | some doc =>
    match input.branch with
    | none =>
        { status := .error "Invalid branch: None"
          appended_rows := []
          uploaded := false }
    | some branch =>
      if branch = "" ∨ ¬ is_valid_branch branch then
        { status := .error ("Invalid branch: " ++ branch)
          appended_rows := []
          uploaded := false }
      else
        let sheet_name := (assocGet sheet_name_map branch).getD ""
        let proceed : SaveOutcome :=
          match world.append_result with
          | .ok _ =>
            let row := doc.to_sheet_row input.nama_toko
            match input.file_id with
            | none =>
                { status := .success, appended_rows := [row],
                  uploaded := false }
            | some _ =>
              match world.upload_result with
              | .ok _ =>
                  { status := .success, appended_rows := [row],
                    uploaded := true }
              | .httpError status =>
                  if status = 403 then
                    { status := .error "Permission denied - check Google Drive access"
                      appended_rows := [row], uploaded := false }
                  else if status = 404 then
                    { status := .error ("Folder not found for branch: " ++ branch)
                      appended_rows := [row], uploaded := false }
                  else
                    { status := .error "Drive API error"
                      appended_rows := [row], uploaded := false }
              | .exnFailure m =>
                  { status := .error ("Error uploading to Drive: " ++ m)
                    appended_rows := [row], uploaded := false }
          | .httpError status =>
              if status = 404 then
                { status := .error ("Sheet not found: " ++ sheet_name)
                  appended_rows := [], uploaded := false }
              else if status = 403 then
                { status := .error "Permission denied - check Google Sheets access"
                  appended_rows := [], uploaded := false }
              else
                { status := .error "Sheets API error"
                  appended_rows := [], uploaded := false }
          | .exnFailure m =>
              { status := .error ("Error saving to spreadsheet: " ++ m)
                appended_rows := [], uploaded := false }
        if bypass_duplicate_check then proceed
        else
          match checkForDuplicates sheet_name doc world.lookup_result with
          | .error msg =>
              { status := .error msg, appended_rows := [], uploaded := false }
          | .ok true =>
              { status := .duplicate_found, appended_rows := [],
                uploaded := false }
          | .ok false => proceed

/-! ### Edit flow (`handlers/messages.py`) -/

/-- Method `MessageHandlers._validate_edit_value`: empty (after strip)
values are rejected outright, the five known fields re-run their
`DocumentValidator`, anything else is accepted.  Returns the error message
or `none` when valid.  `current_year` feeds `validate_nik`. -/
def validateEditValue (field value : String) (current_year : Nat) :
    Option String :=
  if pyStrip value = "" then some "Nilai tidak boleh kosong"
  else if field = "nama" then
    (let r := validate_nama value; if r.1 then none else r.2)
  else if field = "alamat" then
    (let r := validate_alamat value; if r.1 then none else r.2)
  else if field = "nik" then
    (let r := validate_nik value current_year; if r.1 then none else r.2)
  else if field = "npwp_15" then
    (let r := validate_npwp_15 value; if r.1 then none else r.2)
  else if field = "npwp_16" then
    (let r := validate_npwp_16 value; if r.1 then none else r.2)
  else none

/-- The editable string-valued fields of `DocumentData` the edit keyboard
offers together with a Field Validator. -/
def editableFields : List String :=
  ["nama", "alamat", "nik", "npwp_15", "npwp_16"]

/-- Python `setattr(document_data, field, value)` for the validated string
fields (`nama`, `alamat`, `nik`, `npwp_15`, `npwp_16`): the raw value is
stored directly, bypassing `__post_init__`.  Attribute names outside the
dataclass string fields are not modelled. -/
def setAttr (d : DocumentData) (field v : String) : DocumentData :=
  if field = "nama" then { d with nama := v }
  else if field = "alamat" then { d with alamat := some v }
  else if field = "nik" then { d with nik := some v }
  else if field = "npwp_15" then { d with npwp_15 := some v }
  else if field = "npwp_16" then { d with npwp_16 := some v }
  else d

/-- Read access to the same string fields, for frame statements. -/
def getStrField (d : DocumentData) (field : String) : Option String :=
  if field = "nama" then some d.nama
  else if field = "alamat" then d.alamat
  else if field = "nik" then d.nik
  else if field = "npwp_15" then d.npwp_15
  else if field = "npwp_16" then d.npwp_16
  else none

/-- Result of `_handle_data_edit`: the updated session dictionary and the
validation-error reply sent to the user, if any. -/
structure EditResult where
  ctx : CtxData
  error_reply : Option String
deriving DecidableEq, Repr

/-- Method `MessageHandlers._handle_data_edit` on a text message: strip the
submitted text, bail out (clearing the session) when no edit field is
pending, re-run the field validator, and on success write the new value
through to both `extracted_data` and the `DocumentData` object, clear
`edit_field`, store the new preview message id and return to the
`awaiting_confirmation` state. -/
def handleDataEdit (ctx : CtxData) (text : String) (current_year : Nat)
    (new_msg_id now : Nat) : EditResult :=
  let new_value := pyStrip text
  match ctx.edit_field with
  | none =>
      { ctx := clearedCtx
        error_reply := some "Tidak ada field yang sedang diedit. Silakan mulai ulang." }
  | some field =>
    if field = "" then
      { ctx := clearedCtx
        error_reply := some "Tidak ada field yang sedang diedit. Silakan mulai ulang." }
    else
      match validateEditValue field new_value current_year with
      | some err => { ctx := ctx, error_reply := some err }
      | none =>
          { ctx :=
              { ctx with
                  extracted_data := assocSet ctx.extracted_data field new_value
                  document_data :=
                    ctx.document_data.map (fun d => setAttr d field new_value)
                  edit_field := none
                  last_bot_message_id := some new_msg_id
                  state := some "awaiting_confirmation"
                  last_activity := some now }
            error_reply := none }

/-- Whether the Field Validator corresponding to an editable field accepts
a value (the specification-side reading of "re-runs the corresponding Field
Validator"). -/
def fieldValidatorPasses (field value : String) (current_year : Nat) : Bool :=
  if field = "nama" then (validate_nama value).1
  else if field = "alamat" then (validate_alamat value).1
  else if field = "nik" then (validate_nik value current_year).1
  else if field = "npwp_15" then (validate_npwp_15 value).1
  else if field = "npwp_16" then (validate_npwp_16 value).1
  else true

/-- The record invariant stated by the specification for `DocumentData`:
numeric fields contain digits only and have fixed length (16 for `nik` and
`npwp_16`, 15 for `npwp_15`), and exactly one of the nik-bearing /
npwp_15-bearing groups is populated according to `document_type`. -/
def recordInvariant (d : DocumentData) : Bool :=
  (match d.nik with
   | none => true
   | some s => decide (s.data.length = 16) && s.data.all Char.isDigit) &&
  (match d.npwp_16 with
   | none => true
   | some s => decide (s.data.length = 16) && s.data.all Char.isDigit) &&
  (match d.npwp_15 with
   | none => true
   | some s => decide (s.data.length = 15) && s.data.all Char.isDigit) &&
  (match d.document_type with
   | .KTP => d.nik.isSome && d.npwp_15.isNone
   | .NPWP => d.npwp_15.isSome && d.nik.isNone)

/-! ### Helper lemmas about the string primitives -/

theorem dropWhile_idem (p : α → Bool) (l : List α) :
    (l.dropWhile p).dropWhile p = l.dropWhile p := by
  induction l with
  | nil => rfl
  | cons a t ih =>
    cases ha : p a
    · rw [List.dropWhile_cons_of_neg (by simp [ha]),
        List.dropWhile_cons_of_neg (by simp [ha])]
    · rw [List.dropWhile_cons_of_pos ha]
      exact ih

theorem dropWhile_append_singleton (p : α → Bool) (c : α) (l : List α)
    (h : p c = false) :
    (l ++ [c]).dropWhile p = l.dropWhile p ++ [c] := by
  induction l with
  | nil => simp [List.dropWhile_cons, h]
  | cons a t ih => cases ha : p a <;> simp [List.dropWhile_cons, ha, ih]

theorem dropWhile_head_false {p : α → Bool} :
    ∀ {l : List α} {c : α} {t : List α}, l.dropWhile p = c :: t → p c = false := by
  intro l
  induction l with
  | nil => intro c t h; simp at h
  | cons a s ih =>
    intro c t h
    cases ha : p a
    · rw [List.dropWhile_cons_of_neg (by simp [ha])] at h
      injection h with h1 _
      exact h1 ▸ ha
    · rw [List.dropWhile_cons_of_pos ha] at h
      exact ih h

theorem stripL_idem (l : List Char) : stripL (stripL l) = stripL l := by
  unfold stripL
  rcases hA : l.dropWhile isPySpace with _ | ⟨c, t⟩
  · simp
  · have hc : isPySpace c = false := dropWhile_head_false hA
    rw [List.reverse_cons, dropWhile_append_singleton _ _ _ hc,
      List.reverse_append]
    simp only [List.reverse_cons, List.reverse_nil, List.nil_append,
      List.singleton_append]
    rw [List.dropWhile_cons_of_neg (by simp [hc]), List.reverse_cons,
      List.reverse_reverse, dropWhile_append_singleton _ _ _ hc,
      dropWhile_idem, List.reverse_append]
    simp

theorem pyStrip_idem (s : String) : pyStrip (pyStrip s) = pyStrip s := by
  cases s with
  | mk l => simp [pyStrip, stripL_idem]

theorem filterDigitsL_idem (l : List Char) :
    filterDigitsL (filterDigitsL l) = filterDigitsL l := by
  simp [filterDigitsL, List.filter_filter, Bool.and_self]

theorem cleanNumber_idem (s : String) :
    cleanNumber (cleanNumber s) = cleanNumber s := by
  by_cases h : s = ""
  · simp [cleanNumber, h]
  · have hc : cleanNumber s = filterDigits s := by rw [cleanNumber, if_neg h]
    rw [hc]
    by_cases h2 : filterDigits s = ""
    · simp [cleanNumber, h2]
    · rw [cleanNumber, if_neg h2]
      cases s with
      | mk l => simp [filterDigits, filterDigitsL_idem]

theorem pyCleanOptNumber_idem (o : Option String) :
    pyCleanOptNumber (pyCleanOptNumber o) = pyCleanOptNumber o := by
  cases o with
  | none => rfl
  | some s =>
    by_cases h : s = ""
    · simp [pyCleanOptNumber, h]
    · rw [pyCleanOptNumber, if_neg h]
      by_cases h2 : cleanNumber s = ""
      · simp [pyCleanOptNumber, h2]
      · simp [pyCleanOptNumber, h2, cleanNumber_idem]

theorem pyCleanOptText_idem (o : Option String) :
    pyCleanOptText (pyCleanOptText o) = pyCleanOptText o := by
  cases o with
  | none => rfl
  | some s =>
    by_cases h : s = ""
    · simp [pyCleanOptText, h]
    · rw [pyCleanOptText, if_neg h]
      by_cases h2 : pyStrip s = ""
      · simp [pyCleanOptText, h2]
      · simp [pyCleanOptText, h2, pyStrip_idem]

theorem pyCleanText_idem (s : String) :
    (if (if s = "" then s else pyStrip s) = "" then (if s = "" then s else pyStrip s)
      else pyStrip (if s = "" then s else pyStrip s)) =
      (if s = "" then s else pyStrip s) := by
  by_cases h : s = ""
  · simp [h]
  · rw [if_neg h]
    by_cases h2 : pyStrip s = ""
    · simp [h2]
    · simp [h2, pyStrip_idem]

theorem all_pySpace_of_stripL_nil {l : List Char} (h : stripL l = []) :
    ∀ c ∈ l, isPySpace c = true := by
  intro c hc
  unfold stripL at h
  rw [List.reverse_eq_nil_iff] at h
  rw [List.dropWhile_eq_nil_iff] at h
  have hall : ∀ x ∈ l.dropWhile isPySpace, isPySpace x = true := by
    intro x hx
    exact h x (List.mem_reverse.mpr hx)
  rcases (List.mem_append.mp
      ((List.takeWhile_append_dropWhile isPySpace l) ▸ hc)) with hmem | hmem
  · exact List.mem_takeWhile_imp hmem
  · exact hall c hmem

theorem isPySpace_not_digit {c : Char} (h : isPySpace c = true) :
    c.isDigit = false := by
  simp only [isPySpace, Bool.or_eq_true, beq_iff_eq] at h
  rcases h with ((((h | h) | h) | h) | h) | h <;> subst h <;> decide

theorem filterDigitsL_nil_of_strip_empty {s : String} (h : pyStrip s = "") :
    filterDigitsL s.data = [] := by
  have hnil : stripL s.data = [] := by
    have := congrArg String.data h
    simpa [pyStrip] using this
  rw [filterDigitsL, List.filter_eq_nil_iff]
  intro c hc
  simp [isPySpace_not_digit (all_pySpace_of_stripL_nil hnil c hc)]

theorem stripFormattingL_nil_of_strip_empty {s : String} (h : pyStrip s = "") :
    stripFormattingL s.data = [] := by
  have hnil : stripL s.data = [] := by
    have := congrArg String.data h
    simpa [pyStrip] using this
  rw [stripFormattingL, List.filter_eq_nil_iff]
  intro c hc
  have := all_pySpace_of_stripL_nil hnil c hc
  simp [this]

/-! ### C3: numeric repair policy -/

/-- C3: for an expected length of 15, `_clean_and_validate_number` returns
the digit-cleaned value unchanged when it has exactly 15 digits, strips one
leading zero when it has 16 digits starting with '0', and otherwise returns
null; for an expected length of 16 it returns the value unchanged at 16
digits, left-pads one '0' at 15 digits, and otherwise returns null.  A
rejected field is dropped without raising: `_parse_ai_response` still
returns a record with that field null. -/
theorem clean_and_validate_number_repair (s : String) :
    ((filterDigitsL s.data).length = 15 →
        clean_and_validate_number (some s) 15 = some ⟨filterDigitsL s.data⟩) ∧
    ((filterDigitsL s.data).length = 16 →
      (filterDigitsL s.data).head? = some '0' →
        clean_and_validate_number (some s) 15 =
          some ⟨(filterDigitsL s.data).tail⟩) ∧
    ((filterDigitsL s.data).length ≠ 15 →
      ¬ ((filterDigitsL s.data).length = 16 ∧
          (filterDigitsL s.data).head? = some '0') →
        clean_and_validate_number (some s) 15 = none) ∧
    ((filterDigitsL s.data).length = 16 →
        clean_and_validate_number (some s) 16 = some ⟨filterDigitsL s.data⟩) ∧
    ((filterDigitsL s.data).length = 15 →
        clean_and_validate_number (some s) 16 =
          some ⟨'0' :: filterDigitsL s.data⟩) ∧
    ((filterDigitsL s.data).length ≠ 16 → (filterDigitsL s.data).length ≠ 15 →
        clean_and_validate_number (some s) 16 = none) ∧
    (∀ (nama0 : String) (nik0 alamat0 : Option String) (ts : Nat),
      pyStrip nama0 ≠ "" →
      clean_and_validate_number nik0 16 = none →
      parse_ai_response
          { document_type := some "KTP", nama := some nama0, nik := nik0,
            npwp_15 := none, npwp_16 := none, alamat := alamat0 } ts =
        Except.ok (mkDocumentData .KTP (pyStrip nama0)
          (if truthyStr alamat0 then some (pyStrip (alamat0.getD "")) else none)
          none none none none none ts none)) := by
  have hsne : (filterDigitsL s.data).length ≥ 1 → s ≠ "" := by
    intro hl he
    rw [he] at hl
    simp [filterDigitsL] at hl
  have hempOf : (filterDigitsL s.data).length ≥ 1 →
      ¬ (filterDigitsL s.data).isEmpty = true := by
    intro hl he
    rw [List.isEmpty_iff] at he
    rw [he] at hl
    simp at hl
  refine ⟨?_, ?_, ?_, ?_, ?_, ?_, ?_⟩
  · intro h
    simp only [clean_and_validate_number, if_neg (hsne (by omega))]
    rw [if_neg (hempOf (by omega)), if_pos trivial, if_pos h]
  · intro h hz
    simp only [clean_and_validate_number, if_neg (hsne (by omega))]
    rw [if_neg (hempOf (by omega)), if_pos trivial, if_neg (by omega),
      if_pos ⟨h, hz⟩]
  · intro h hno
    by_cases hs : s = ""
    · simp [clean_and_validate_number, hs]
    · simp only [clean_and_validate_number, if_neg hs]
      by_cases hemp : (filterDigitsL s.data).isEmpty = true
      · rw [if_pos hemp]
      · rw [if_neg hemp, if_pos trivial, if_neg h, if_neg hno]
  · intro h
    simp only [clean_and_validate_number, if_neg (hsne (by omega))]
    rw [if_neg (hempOf (by omega)), if_pos trivial, if_pos h,
      if_neg (by decide)]
  · intro h
    simp only [clean_and_validate_number, if_neg (hsne (by omega))]
    rw [if_neg (hempOf (by omega)), if_pos trivial, if_neg (by omega),
      if_pos h, if_neg (by omega)]
  · intro h16 h15
    by_cases hs : s = ""
    · simp [clean_and_validate_number, hs]
    · simp only [clean_and_validate_number, if_neg hs]
      by_cases hemp : (filterDigitsL s.data).isEmpty = true
      · rw [if_pos hemp]
      · rw [if_neg hemp, if_pos trivial, if_neg h16, if_neg h15,
          if_neg (by decide), if_neg h15]
  · intro nama0 nik0 alamat0 ts hnama hnik
    simp only [parse_ai_response]
    have hktp : pyStrip (pyUpper "KTP") = "KTP" := by decide
    rw [hktp]
    simp [hnik, hnama]

/-- C3 witness: the repair at a concrete raw value with a 16-digit cleaned
form and a leading zero. -/
theorem clean_and_validate_number_repair_witness :
    clean_and_validate_number (some "0123456789012345") 15 =
        some "123456789012345" ∧
      clean_and_validate_number (some "0123456789012345") 16 =
        some "0123456789012345" := by
  obtain ⟨-, h2, -, h4, -, -, -⟩ :=
    clean_and_validate_number_repair "0123456789012345"
  refine ⟨?_, ?_⟩
  · rw [h2 (by decide) (by decide)]; decide
  · rw [h4 (by decide)]; decide

/-! ### C4: extraction retry policy (corrected) -/

/-- C4 counterexample: when every attempt hits the rate limit, the loop
backs off 5 then 10 seconds and then re-raises the `RateLimitError` itself;
it does not raise `AIProcessingError`, so the final-raise clause of the
claim fails. -/
theorem extract_retry_c4_counterexample :
    extract_document_data "openai" (fun _ => Attempt.rateLimit) 3 =
        ExtractOutcome.raisedRateLimit 3 [5, 10] ∧
      (extract_document_data "openai"
          (fun _ => Attempt.rateLimit) 3).isAIProcessingRaise = false := by
  exact ⟨by decide, by decide⟩

/-- C4 amended: `extract_document_data` makes at most 3 attempts; a
rate-limited attempt i backs off 2^i * 5 seconds before the retry, an
authentication failure raises immediately with no retry, any other failure
pauses 2 seconds; after the third failed attempt the loop raises
`AIProcessingError` carrying the provider name when that third failure is a
generic one, but re-raises the `RateLimitError` itself (without the
provider name) when the third failure is a rate limit.  `extractSpec` is
the literal unrolling of exactly that policy. -/
theorem extract_retry_policy (provider : String) (f : Nat → Attempt) :
    extract_document_data provider f 3 = extractSpec provider f := by
  unfold extract_document_data extractSpec
  rcases h0 : f 0 <;> rcases h1 : f 1 <;> rcases h2 : f 2 <;>
    simp [extractGo, h0, h1, h2, waitFor]

/-! ### C9: NIK validator (corrected) -/

/-- C9 counterexample: the all-ones string has a whitelisted region prefix
("11") and a date part ("111111", i.e. 11 Nov 2011) that passes the NIK
date check, so the universal part of the claim asserts it is valid; the
validator rejects it (as the claim's own all-ones clause also requires). -/
theorem validate_nik_c9_counterexample :
    validate_nik "1111111111111111" 2026 =
        (false, some "NIK tidak valid (semua angka sama)") ∧
      isValidProvinceCode "11" = true ∧
      isValidNikDate "111111" 2026 = true := by
  exact ⟨by decide, by decide, by decide⟩

/-- C9 amended: `validate_nik` returns valid for every 16-digit string
other than the all-ones string whose first two digits are in the region
whitelist and whose digits 7 through 12 pass the DDMMYY date check (day
possibly offset by +40, day 1..31, month 1..12, two-digit year mapped to
1951-1999 above the threshold 50 and to 2000-2050 at or below it, and the
resulting year not in the future); it returns invalid for the all-zeros
and all-ones strings. -/
theorem validate_nik_amended :
    (∀ (s : String) (current_year : Nat),
      s.data.all Char.isDigit = true →
      s.data.length = 16 →
      s ≠ ⟨List.replicate 16 '1'⟩ →
      isValidProvinceCode ⟨s.data.take 2⟩ = true →
      isValidNikDate ⟨(s.data.drop 6).take 6⟩ current_year = true →
      validate_nik s current_year = (true, none)) ∧
    (∀ current_year : Nat,
      (validate_nik ⟨List.replicate 16 '0'⟩ current_year).1 = false) ∧
    (∀ current_year : Nat,
      (validate_nik ⟨List.replicate 16 '1'⟩ current_year).1 = false) := by
  refine ⟨?_, fun _ => rfl, fun _ => rfl⟩
  intro s current_year hdig hlen hones hprov hdate
  have hclean : filterDigitsL s.data = s.data := by
    rw [filterDigitsL, List.filter_eq_self]
    intro a ha
    exact List.all_eq_true.mp hdig a ha
  have hs : s ≠ "" := by
    intro h
    rw [h] at hlen
    simp at hlen
  have hz : s.data ≠ List.replicate 16 '0' := by
    intro h
    rw [h] at hprov
    exact absurd hprov (by decide)
  have ho : s.data ≠ List.replicate 16 '1' := by
    intro h
    apply hones
    have hmk : s = String.mk s.data := by cases s; rfl
    rw [hmk, h]
  simp only [validate_nik, hclean]
  rw [if_neg hs, if_neg (by simp [hlen]), if_neg (by simp [hdig]),
    if_neg hz, if_neg ho, if_neg (by simp [hprov]), if_neg (by simp [hdate])]

/-- C9 witness: a realistic NIK (region 32, born 01 Jan 1990) accepted by
the amended statement. -/
theorem validate_nik_amended_witness :
    validate_nik "3201010101900001" 2026 = (true, none) :=
  validate_nik_amended.1 "3201010101900001" 2026 (by decide) (by decide)
    (by decide) (by decide) (by decide)

/-! ### C10: serialisation round-trip -/

/-- C10: reconstructing a constructed `DocumentData` from its `to_dict`
output yields an equal record, over every populated-field combination. -/
theorem document_data_roundtrip (dt : DocumentType) (nama : String)
    (alamat nik npwp_15 npwp_16 : Option String) (nt : Option NPWPType)
    (conf : Option Int) (ts : Nat) (ai : Option String) :
    DocumentData.from_dict
        (DocumentData.to_dict
          (mkDocumentData dt nama alamat nik npwp_15 npwp_16 nt conf ts ai)) =
      some (mkDocumentData dt nama alamat nik npwp_15 npwp_16 nt conf ts ai) := by
  cases nt with
  | none =>
    cases dt <;>
      simp [DocumentData.to_dict, DocumentData.from_dict, mkDocumentData,
        DocumentType.value, documentTypeOfValue, pyCleanOptNumber_idem,
        pyCleanOptText_idem, pyCleanText_idem]
  | some x =>
    cases x <;> cases dt <;>
      simp [DocumentData.to_dict, DocumentData.from_dict, mkDocumentData,
        DocumentType.value, NPWPType.value, documentTypeOfValue,
        npwpTypeOfValue, pyCleanOptNumber_idem, pyCleanOptText_idem,
        pyCleanText_idem]

/-! ### C1: duplicate detection and bypass -/

/-- C1: when the store holds a token matching one of the record's non-empty
duplicate-check values, a commit without bypass returns `duplicate_found`
and performs neither the row append nor the upload; the same commit with
the bypass flag performs both and succeeds. -/
theorem duplicate_commit_flow (doc : DocumentData)
    (branch nama_toko fid : String) (cells : List String) (world : SaveWorld)
    (hbr : is_valid_branch branch = true)
    (hlookup : world.lookup_result = .ok cells)
    (happend : world.append_result = .ok ())
    (hupload : world.upload_result = .ok ())
    (hdup : cells.any
      (fun c => doc.get_duplicate_check_values.contains (pyStrip c)) = true) :
    save_photo_and_data
        { document_data := some doc, branch := some branch,
          nama_toko := nama_toko, file_id := some fid } world false =
      { status := .duplicate_found, appended_rows := [], uploaded := false } ∧
    save_photo_and_data
        { document_data := some doc, branch := some branch,
          nama_toko := nama_toko, file_id := some fid } world true =
      { status := .success, appended_rows := [doc.to_sheet_row nama_toko],
        uploaded := true } := by
  have hb0 : branch ≠ "" := by
    intro h
    rw [h] at hbr
    exact absurd hbr (by decide)
  have hne : doc.get_duplicate_check_values.isEmpty = false := by
    rcases hcv : doc.get_duplicate_check_values with _ | ⟨a, t⟩
    · rw [hcv] at hdup
      simp at hdup
    · simp
  have hdup2 : (cells.any fun c =>
      decide (pyStrip c ∈ doc.get_duplicate_check_values)) = true := by
    simpa using hdup
  constructor
  · simp [save_photo_and_data, checkForDuplicates, hlookup, happend,
      hupload, hb0, hbr, hne, hdup2]
  · simp [save_photo_and_data, happend, hupload, hb0, hbr]

/-- C1 witness: a KTP record whose `primary_id` collides with a stored
token. -/
theorem duplicate_commit_flow_witness :
    save_photo_and_data
        { document_data := some (mkDocumentData .KTP "Budi" none
            (some "3201010101900001") none none none none 0 none),
          branch := some "BJ", nama_toko := "Toko Jaya",
          file_id := some "f1" }
        { lookup_result := .ok ["3201010101900001"],
          append_result := .ok (), upload_result := .ok () } false =
      { status := .duplicate_found, appended_rows := [], uploaded := false } ∧
    save_photo_and_data
        { document_data := some (mkDocumentData .KTP "Budi" none
            (some "3201010101900001") none none none none 0 none),
          branch := some "BJ", nama_toko := "Toko Jaya",
          file_id := some "f1" }
        { lookup_result := .ok ["3201010101900001"],
          append_result := .ok (), upload_result := .ok () } true =
      { status := .success,
        appended_rows := [(mkDocumentData .KTP "Budi" none
          (some "3201010101900001") none none none none 0 none).to_sheet_row
            "Toko Jaya"],
        uploaded := true } :=
  duplicate_commit_flow _ _ _ _ _ _ (by decide) rfl rfl rfl (by decide)

/-! ### C5: commit failure semantics (corrected) -/

/-- C5 counterexample: a non-HTTP duplicate-lookup failure is swallowed
(`return False`): the commit proceeds, appends the row and uploads the
file with a `success` status, so a lookup failure does not prevent the
append and upload. -/
theorem save_c5_counterexample :
    save_photo_and_data
        { document_data := some (mkDocumentData .KTP "Budi" none
            (some "3201010101900001") none none none none 0 none),
          branch := some "BJ", nama_toko := "Toko", file_id := some "f1" }
        { lookup_result := .exnFailure "boom", append_result := .ok (),
          upload_result := .ok () } false =
      { status := .success,
        appended_rows :=
          [["KTP", "Toko", "", "", "", "", "3201010101900001", "", "Budi", ""]],
        uploaded := true } := by
  decide

/-- C5 amended: an HTTP failure of the duplicate lookup aborts the commit
with an error, preventing append and upload; a non-HTTP lookup failure is
swallowed and the commit proceeds exactly as if the check had been
bypassed; an append failure returns an error and prevents the upload; an
upload failure returns an error but leaves the already-appended row in
place (no rollback). -/
theorem save_failure_semantics (doc : DocumentData)
    (branch nama_toko fid : String) (world : SaveWorld)
    (hbr : is_valid_branch branch = true) :
    let input : SaveInput :=
      { document_data := some doc, branch := some branch,
        nama_toko := nama_toko, file_id := some fid }
    (∀ n, world.lookup_result = .httpError n →
      doc.get_duplicate_check_values ≠ [] →
      (save_photo_and_data input world false).status.isError = true ∧
      (save_photo_and_data input world false).appended_rows = [] ∧
      (save_photo_and_data input world false).uploaded = false) ∧
    (∀ m, world.lookup_result = .exnFailure m →
      save_photo_and_data input world false =
        save_photo_and_data input world true) ∧
    (∀ n, world.append_result = .httpError n →
      (save_photo_and_data input world true).status.isError = true ∧
      (save_photo_and_data input world true).appended_rows = [] ∧
      (save_photo_and_data input world true).uploaded = false) ∧
    (∀ m, world.append_result = .exnFailure m →
      (save_photo_and_data input world true).status.isError = true ∧
      (save_photo_and_data input world true).appended_rows = [] ∧
      (save_photo_and_data input world true).uploaded = false) ∧
    (∀ m, world.append_result = .ok () →
      world.upload_result = .exnFailure m →
      (save_photo_and_data input world true).status.isError = true ∧
      (save_photo_and_data input world true).appended_rows =
        [doc.to_sheet_row nama_toko] ∧
      (save_photo_and_data input world true).uploaded = false) ∧
    (∀ n, world.append_result = .ok () →
      world.upload_result = .httpError n →
      (save_photo_and_data input world true).status.isError = true ∧
      (save_photo_and_data input world true).appended_rows =
        [doc.to_sheet_row nama_toko] ∧
      (save_photo_and_data input world true).uploaded = false) := by
  have hb0 : branch ≠ "" := by
    intro h
    rw [h] at hbr
    exact absurd hbr (by decide)
  refine ⟨?_, ?_, ?_, ?_, ?_, ?_⟩
  · intro n hl hcv
    have hne : doc.get_duplicate_check_values.isEmpty = false := by
      rcases hcv2 : doc.get_duplicate_check_values with _ | ⟨a, t⟩
      · exact absurd hcv2 hcv
      · simp
    by_cases hn : n = 404 <;>
      simp [save_photo_and_data, checkForDuplicates, hl, hne, hb0, hbr, hn,
        SaveStatus.isError]
  · intro m hl
    have hchk : checkForDuplicates ((assocGet sheet_name_map branch).getD "")
        doc world.lookup_result = .ok false := by
      simp only [checkForDuplicates, hl]
      split <;> rfl
    simp [save_photo_and_data, hchk, hb0, hbr]
  · intro n ha
    by_cases hn4 : n = 404 <;> by_cases hn3 : n = 403 <;>
      simp [save_photo_and_data, ha, hb0, hbr, hn4, hn3,
        SaveStatus.isError]
  · intro m ha
    simp [save_photo_and_data, ha, hb0, hbr, SaveStatus.isError]
  · intro m ha hu
    simp [save_photo_and_data, ha, hu, hb0, hbr, SaveStatus.isError]
  · intro n ha hu
    by_cases hn3 : n = 403 <;> by_cases hn4 : n = 404 <;>
      simp [save_photo_and_data, ha, hu, hb0, hbr, hn3, hn4,
        SaveStatus.isError]

/-- C5 witness: an HTTP lookup failure at a concrete commit aborts with an
error and performs no append and no upload. -/
theorem save_failure_semantics_witness :
    (save_photo_and_data
        { document_data := some (mkDocumentData .KTP "Budi" none
            (some "3201010101900001") none none none none 0 none),
          branch := some "BJ", nama_toko := "Toko", file_id := some "f1" }
        { lookup_result := .httpError 500, append_result := .ok (),
          upload_result := .ok () } false).status.isError = true ∧
    (save_photo_and_data
        { document_data := some (mkDocumentData .KTP "Budi" none
            (some "3201010101900001") none none none none 0 none),
          branch := some "BJ", nama_toko := "Toko", file_id := some "f1" }
        { lookup_result := .httpError 500, append_result := .ok (),
          upload_result := .ok () } false).appended_rows = [] ∧
    (save_photo_and_data
        { document_data := some (mkDocumentData .KTP "Budi" none
            (some "3201010101900001") none none none none 0 none),
          branch := some "BJ", nama_toko := "Toko", file_id := some "f1" }
        { lookup_result := .httpError 500, append_result := .ok (),
          upload_result := .ok () } false).uploaded = false :=
  (save_failure_semantics
    (mkDocumentData .KTP "Budi" none (some "3201010101900001") none none
      none none 0 none)
    "BJ" "Toko" "f1"
    { lookup_result := .httpError 500, append_result := .ok (),
      upload_result := .ok () } (by decide)).1 500 rfl (by decide)

/-! ### C2: transition-table enforcement (corrected) -/

/-- C2 counterexample: the pair (idle, awaiting_confirmation) is absent
from the transition table (`can_transition_to` rejects it), yet
`_set_session_state` applied to a session dictionary in the idle state
stores `awaiting_confirmation` anyway and does not reset the session to
idle. -/
theorem set_session_state_c2_counterexample :
    (mkUserSession 1 0).can_transition_to SessionState.awaiting_confirmation
        = false ∧
      (setSessionState { clearedCtx with state := some "idle" }
          "awaiting_confirmation" 5).state = some "awaiting_confirmation" ∧
      (setSessionState { clearedCtx with state := some "idle" }
          "awaiting_confirmation" 5).state ≠ some "idle" := by
  exact ⟨by decide, rfl, by decide⟩

/-- C2 amended: the transition table function `can_transition_to` accepts
a transition exactly when it is listed in the table or targets idle (in
particular it allows a transition to idle from every state), but the
handlers never consult it: `_set_session_state` stores any requested state
unconditionally and never resets the session to idle on its own. -/
theorem transition_enforcement_amended :
    (∀ s : UserSession, s.can_transition_to SessionState.idle = true) ∧
    (∀ (s : UserSession) (t : SessionState),
      s.can_transition_to t = true ↔
        (t ∈ valid_transitions s.state ∨ t = SessionState.idle)) ∧
    (∀ (ctx : CtxData) (st : String) (now : Nat),
      (setSessionState ctx st now).state = some st ∧
      (st ≠ "idle" → (setSessionState ctx st now).state ≠ some "idle")) := by
  refine ⟨?_, ?_, ?_⟩
  · intro s
    simp [UserSession.can_transition_to]
  · intro s t
    simp [UserSession.can_transition_to]
  · intro ctx st now
    refine ⟨rfl, ?_⟩
    intro hne hcontra
    exact hne (by simpa [setSessionState] using hcontra)

/-- C2 amended witness: the unconditional store at a concrete illegal
transition request. -/
theorem transition_enforcement_amended_witness :
    (setSessionState clearedCtx "awaiting_confirmation" 0).state =
        some "awaiting_confirmation" ∧
      (setSessionState clearedCtx "awaiting_confirmation" 0).state ≠
        some "idle" := by
  obtain ⟨-, -, h3⟩ := transition_enforcement_amended
  obtain ⟨ha, hb⟩ := h3 clearedCtx "awaiting_confirmation" 0
  exact ⟨ha, hb (by decide)⟩

/-! ### C6: idle expiry and activity monotonicity -/

/-- C6: a stored session whose idle time exceeds the timeout is replaced on
the next access by a fresh idle session (its state, record and workflow are
discarded, and the map now holds the fresh session); and every
activity-touching session operation leaves `last_activity` non-decreasing
(the clock reading `now` being at least the stored timestamp). -/
theorem session_expiry_and_activity (sessions : SessionMap)
    (uid timeout now : Nat) (s : UserSession)
    (hnow : s.last_activity ≤ now) :
    (sessions uid = some s → s.is_expired timeout now = true →
      (getSession sessions uid timeout now).1 = mkUserSession uid now ∧
      (getSession sessions uid timeout now).1.state = SessionState.idle ∧
      (getSession sessions uid timeout now).1.document_data = none ∧
      (getSession sessions uid timeout now).1.workflow_type = none ∧
      (getSession sessions uid timeout now).2 uid =
        some (mkUserSession uid now)) ∧
    s.last_activity ≤ (s.update_activity now).last_activity ∧
    (∀ st, s.last_activity ≤ (s.set_state st now).last_activity) ∧
    (∀ w, s.last_activity ≤ (s.set_workflow w now).last_activity) ∧
    s.last_activity ≤ s.clear_workflow_data.last_activity ∧
    s.last_activity ≤ (s.reset_session now).last_activity ∧
    s.last_activity ≤ (s.increment_error_count now).last_activity ∧
    (sessions uid = some s →
      s.last_activity ≤ (getSession sessions uid timeout now).1.last_activity) := by
  refine ⟨?_, ?_, ?_, ?_, ?_, ?_, ?_, ?_⟩
  · intro hsome hexp
    simp [getSession, hsome, hexp, mkUserSession, UserSession.update_activity]
  · simpa [UserSession.update_activity] using hnow
  · intro st
    simpa [UserSession.set_state, UserSession.update_activity] using hnow
  · intro w
    simpa [UserSession.set_workflow, UserSession.set_state,
      UserSession.update_activity] using hnow
  · simp [UserSession.clear_workflow_data]
  · simpa [UserSession.reset_session, UserSession.clear_workflow_data,
      UserSession.update_activity] using hnow
  · simpa [UserSession.increment_error_count,
      UserSession.update_activity] using hnow
  · intro hsome
    by_cases hexp : s.is_expired timeout now = true
    · simpa [getSession, hsome, hexp, mkUserSession,
        UserSession.update_activity] using hnow
    · simp [getSession, hsome, hexp]

/-- C6 witness: an expired concrete session (30-minute timeout in seconds,
idle since instant 0, touched at instant 5000) is replaced by a fresh idle
session. -/
theorem session_expiry_and_activity_witness :
    (getSession
        (fun _ => some { mkUserSession 7 0 with
          state := SessionState.awaiting_confirmation })
        7 1800 5000).1 = mkUserSession 7 5000 ∧
      (getSession
        (fun _ => some { mkUserSession 7 0 with
          state := SessionState.awaiting_confirmation })
        7 1800 5000).1.state = SessionState.idle := by
  obtain ⟨h1, -, -, -, -, -, -, -⟩ :=
    session_expiry_and_activity
      (fun _ => some { mkUserSession 7 0 with
        state := SessionState.awaiting_confirmation })
      7 1800 5000
      { mkUserSession 7 0 with state := SessionState.awaiting_confirmation }
      (by decide)
  obtain ⟨ha, hb, -, -, -⟩ := h1 rfl (by decide)
  exact ⟨ha, hb⟩

/-! ### Helper lemmas for the edit flow -/

theorem validate_nama_strip_empty {v : String} (h : pyStrip v = "") :
    (validate_nama v).1 = false := by
  simp [validate_nama, h]

theorem validate_alamat_strip_empty {v : String} (h : pyStrip v = "") :
    (validate_alamat v).1 = false := by
  simp [validate_alamat, h]

theorem validate_nik_strip_empty {v : String} (y : Nat)
    (h : pyStrip v = "") : (validate_nik v y).1 = false := by
  by_cases hv : v = ""
  · simp [validate_nik, hv]
  · have hf := filterDigitsL_nil_of_strip_empty h
    simp [validate_nik, hv, hf]

theorem validate_npwp_15_strip_empty {v : String} (h : pyStrip v = "") :
    (validate_npwp_15 v).1 = false := by
  by_cases hv : v = ""
  · simp [validate_npwp_15, hv]
  · have hf := stripFormattingL_nil_of_strip_empty h
    simp [validate_npwp_15, hv, hf]

theorem validate_npwp_16_strip_empty {v : String} (h : pyStrip v = "") :
    (validate_npwp_16 v).1 = false := by
  by_cases hv : v = ""
  · simp [validate_npwp_16, hv]
  · have hf := stripFormattingL_nil_of_strip_empty h
    simp [validate_npwp_16, hv, hf]

theorem validate_nama_false_msg (v : String) :
    (validate_nama v).1 = false → (validate_nama v).2 ≠ none := by
  intro h
  simp only [validate_nama] at h ⊢
  split_ifs at h ⊢ <;> simp_all

theorem validate_alamat_false_msg (v : String) :
    (validate_alamat v).1 = false → (validate_alamat v).2 ≠ none := by
  intro h
  simp only [validate_alamat] at h ⊢
  split_ifs at h ⊢ <;> simp_all

theorem validate_nik_false_msg (v : String) (y : Nat) :
    (validate_nik v y).1 = false → (validate_nik v y).2 ≠ none := by
  intro h
  simp only [validate_nik] at h ⊢
  split_ifs at h ⊢ <;> simp_all

theorem validate_npwp_15_false_msg (v : String) :
    (validate_npwp_15 v).1 = false → (validate_npwp_15 v).2 ≠ none := by
  intro h
  simp only [validate_npwp_15] at h ⊢
  split_ifs at h ⊢ <;> simp_all

theorem validate_npwp_16_false_msg (v : String) :
    (validate_npwp_16 v).1 = false → (validate_npwp_16 v).2 ≠ none := by
  intro h
  simp only [validate_npwp_16] at h ⊢
  split_ifs at h ⊢ <;> simp_all

theorem ite_pair_none_iff {r : Bool × Option String}
    (hmsg : r.1 = false → r.2 ≠ none) :
    (if r.1 = true then none else r.2) = none ↔ r.1 = true := by
  cases r with
  | mk a b => cases a <;> simp_all

theorem assocGet_assocSet_self (l : List (String × String)) (k v : String) :
    assocGet (assocSet l k v) k = some v := by
  induction l with
  | nil => simp [assocSet, assocGet]
  | cons p t ih =>
    cases p with
    | mk k2 v2 =>
      by_cases h : k2 = k
      · simp [assocSet, assocGet, h]
      · simp [assocSet, assocGet, h, ih]

theorem assocGet_assocSet_ne (l : List (String × String)) (k v k2 : String)
    (h : k2 ≠ k) :
    assocGet (assocSet l k v) k2 = assocGet l k2 := by
  have hne : ¬ k = k2 := fun hh => h hh.symm
  induction l with
  | nil =>
    simp only [assocSet, assocGet]
    rw [if_neg hne]
  | cons p t ih =>
    cases p with
    | mk kk vv =>
      by_cases hk : kk = k
      · subst hk
        simp only [assocSet, if_pos rfl, assocGet]
        rw [if_neg hne, if_neg hne]
      · simp only [assocSet, if_neg hk, assocGet]
        by_cases hk2 : kk = k2
        · rw [if_pos hk2, if_pos hk2]
        · rw [if_neg hk2, if_neg hk2]
          exact ih

theorem validateEditValue_none_iff (field v : String) (y : Nat)
    (hmem : field ∈ editableFields) :
    validateEditValue field v y = none ↔
      fieldValidatorPasses field v y = true := by
  simp only [editableFields, List.mem_cons, List.mem_singleton,
    List.not_mem_nil, or_false] at hmem
  by_cases hs : pyStrip v = ""
  · rcases hmem with rfl | rfl | rfl | rfl | rfl <;>
      simp [validateEditValue, fieldValidatorPasses, hs,
        validate_nama_strip_empty hs, validate_alamat_strip_empty hs,
        validate_nik_strip_empty y hs, validate_npwp_15_strip_empty hs,
        validate_npwp_16_strip_empty hs]
  · rcases hmem with rfl | rfl | rfl | rfl | rfl <;>
      simp only [validateEditValue, fieldValidatorPasses, if_neg hs,
        reduceIte] <;>
      first
        | exact ite_pair_none_iff (validate_nama_false_msg v)
        | exact ite_pair_none_iff (validate_alamat_false_msg v)
        | exact ite_pair_none_iff (validate_nik_false_msg v y)
        | exact ite_pair_none_iff (validate_npwp_15_false_msg v)
        | exact ite_pair_none_iff (validate_npwp_16_false_msg v)

/-! ### C7: edit validation and write-through -/

/-- C7: from the awaiting-edit-input state, a submitted value for the
pending editable field first re-runs the corresponding Field Validator
(`validateEditValue` accepts exactly when the field's validator does); on
success the session returns to awaiting_confirmation with that field
written to both the shadow `extracted_data` map and the `DocumentData`
record, every other extracted key, record string field and session datum
unchanged, and the pending edit cleared; on failure an error reply is sent,
the state stays awaiting_edit_input and the session dictionary (record and
shadow map included) is untouched. -/
theorem edit_input_flow (ctx : CtxData) (field text : String)
    (current_year new_msg_id now : Nat)
    (hstate : ctx.state = some "awaiting_edit_input")
    (hfield : ctx.edit_field = some field)
    (hmem : field ∈ editableFields) :
    (validateEditValue field (pyStrip text) current_year = none ↔
      fieldValidatorPasses field (pyStrip text) current_year = true) ∧
    (fieldValidatorPasses field (pyStrip text) current_year = true →
      (handleDataEdit ctx text current_year new_msg_id now).ctx.state =
          some "awaiting_confirmation" ∧
      (handleDataEdit ctx text current_year new_msg_id now).ctx.edit_field =
          none ∧
      (handleDataEdit ctx text current_year new_msg_id now).error_reply =
          none ∧
      assocGet (handleDataEdit ctx text current_year
          new_msg_id now).ctx.extracted_data field = some (pyStrip text) ∧
      (∀ k, k ≠ field →
        assocGet (handleDataEdit ctx text current_year
            new_msg_id now).ctx.extracted_data k =
          assocGet ctx.extracted_data k) ∧
      (handleDataEdit ctx text current_year new_msg_id now).ctx.document_data =
        ctx.document_data.map (fun d => setAttr d field (pyStrip text)) ∧
      (∀ (d : DocumentData) (g : String), g ∈ editableFields → g ≠ field →
        getStrField (setAttr d field (pyStrip text)) g = getStrField d g) ∧
      (∀ d : DocumentData,
        (setAttr d field (pyStrip text)).document_type = d.document_type ∧
        (setAttr d field (pyStrip text)).npwp_type = d.npwp_type) ∧
      (handleDataEdit ctx text current_year new_msg_id now).ctx.branch =
          ctx.branch ∧
      (handleDataEdit ctx text current_year new_msg_id now).ctx.nama_toko =
          ctx.nama_toko) ∧
    (fieldValidatorPasses field (pyStrip text) current_year = false →
      (handleDataEdit ctx text current_year new_msg_id now).ctx = ctx ∧
      (handleDataEdit ctx text current_year new_msg_id now).ctx.state =
          some "awaiting_edit_input" ∧
      (handleDataEdit ctx text current_year
          new_msg_id now).error_reply.isSome = true) := by
  have hiff := validateEditValue_none_iff field (pyStrip text)
    current_year hmem
  have hfne : field ≠ "" := by
    simp only [editableFields, List.mem_cons, List.mem_singleton,
      List.not_mem_nil, or_false] at hmem
    rcases hmem with rfl | rfl | rfl | rfl | rfl <;> decide
  refine ⟨hiff, ?_, ?_⟩
  · intro hpass
    have hval : validateEditValue field (pyStrip text) current_year = none :=
      hiff.mpr hpass
    have hred : handleDataEdit ctx text current_year new_msg_id now =
        { ctx :=
            { ctx with
                extracted_data :=
                  assocSet ctx.extracted_data field (pyStrip text)
                document_data :=
                  ctx.document_data.map
                    (fun d => setAttr d field (pyStrip text))
                edit_field := none
                last_bot_message_id := some new_msg_id
                state := some "awaiting_confirmation"
                last_activity := some now }
          error_reply := none } := by
      simp only [handleDataEdit, hfield, hval]
      rw [if_neg hfne]
    rw [hred]
    refine ⟨rfl, rfl, rfl, ?_, ?_, rfl, ?_, ?_, rfl, rfl⟩
    · exact assocGet_assocSet_self _ _ _
    · intro k hk
      exact assocGet_assocSet_ne _ _ _ _ hk
    · intro d g hg hgne
      simp only [editableFields, List.mem_cons, List.mem_singleton,
        List.not_mem_nil, or_false] at hmem hg
      rcases hmem with rfl | rfl | rfl | rfl | rfl <;>
        rcases hg with rfl | rfl | rfl | rfl | rfl <;>
        first
          | exact absurd rfl hgne
          | simp [setAttr, getStrField]
    · intro d
      simp only [editableFields, List.mem_cons, List.mem_singleton,
        List.not_mem_nil, or_false] at hmem
      rcases hmem with rfl | rfl | rfl | rfl | rfl <;>
        simp [setAttr]
  · intro hfail
    have hval : validateEditValue field (pyStrip text) current_year ≠ none := by
      intro h
      rw [hiff.mp h] at hfail
      exact absurd hfail (by simp)
    rcases hv : validateEditValue field (pyStrip text) current_year with
      _ | err
    · exact absurd hv hval
    · have hred : handleDataEdit ctx text current_year new_msg_id now =
          { ctx := ctx, error_reply := some err } := by
        simp only [handleDataEdit, hfield, hv]
        rw [if_neg hfne]
      rw [hred]
      exact ⟨rfl, hstate, rfl⟩

/-- C7 witness: editing the name of a concrete session to a valid value
lands back in awaiting_confirmation with the value written through; the
validator on the same session rejects a one-letter value. -/
theorem edit_input_flow_witness :
    (handleDataEdit
        { state := some "awaiting_edit_input", workflow_type := some "photo",
          edit_field := some "nama",
          extracted_data := [("nama", "Old"), ("nik", "3201010101900001")],
          document_data := some (mkDocumentData .KTP "Old" none
            (some "3201010101900001") none none none none 0 none),
          branch := some "BJ", sheet_name := some "S",
          nama_toko := some "T", last_bot_message_id := some 7,
          last_activity := some 5 }
        " Ani Baru " 2026 9 10).ctx.state = some "awaiting_confirmation" ∧
    assocGet (handleDataEdit
        { state := some "awaiting_edit_input", workflow_type := some "photo",
          edit_field := some "nama",
          extracted_data := [("nama", "Old"), ("nik", "3201010101900001")],
          document_data := some (mkDocumentData .KTP "Old" none
            (some "3201010101900001") none none none none 0 none),
          branch := some "BJ", sheet_name := some "S",
          nama_toko := some "T", last_bot_message_id := some 7,
          last_activity := some 5 }
        " Ani Baru " 2026 9 10).ctx.extracted_data "nama" =
      some "Ani Baru" := by
  obtain ⟨-, hsucc, -⟩ := edit_input_flow
    { state := some "awaiting_edit_input", workflow_type := some "photo",
      edit_field := some "nama",
      extracted_data := [("nama", "Old"), ("nik", "3201010101900001")],
      document_data := some (mkDocumentData .KTP "Old" none
        (some "3201010101900001") none none none none 0 none),
      branch := some "BJ", sheet_name := some "S",
      nama_toko := some "T", last_bot_message_id := some 7,
      last_activity := some 5 }
    "nama" " Ani Baru " 2026 9 10 rfl rfl (by decide)
  obtain ⟨h1, -, -, h4, -⟩ := hsucc (by decide)
  refine ⟨h1, ?_⟩
  rw [h4]
  decide

/-! ### C8: record invariant (corrected) -/

/-- C8 counterexample: the constructor accepts a 2-digit `nik` for a KTP
record unchanged, so a constructed record violating the claimed invariant
(digits of fixed length 16) is reachable. -/
theorem record_invariant_c8_counterexample :
    recordInvariant (mkDocumentData .KTP "Budi" none (some "12") none none
      none none 0 none) = false := by
  decide

/-- C8 amended: construction only cleans (numeric fields are reduced to
their digit characters, text fields are stripped, each only when truthy);
it enforces neither the fixed lengths nor the exactly-one-group rule.  A
field edit stores the raw submitted text, so even a validated edit can
break the digits-only property: a formatted NIK accepted by the field
validator leaves the record violating the invariant. -/
theorem document_cleanup_amended (dt : DocumentType) (nama : String)
    (alamat nik npwp_15 npwp_16 : Option String) (nt : Option NPWPType)
    (conf : Option Int) (ts : Nat) (ai : Option String) :
    ((mkDocumentData dt nama alamat nik npwp_15 npwp_16 nt conf ts ai).nik =
        nik.map (fun s => if s = "" then s else filterDigits s) ∧
      (mkDocumentData dt nama alamat nik npwp_15 npwp_16 nt conf
          ts ai).npwp_15 =
        npwp_15.map (fun s => if s = "" then s else filterDigits s) ∧
      (mkDocumentData dt nama alamat nik npwp_15 npwp_16 nt conf
          ts ai).npwp_16 =
        npwp_16.map (fun s => if s = "" then s else filterDigits s) ∧
      (mkDocumentData dt nama alamat nik npwp_15 npwp_16 nt conf
          ts ai).nama = (if nama = "" then nama else pyStrip nama) ∧
      (mkDocumentData dt nama alamat nik npwp_15 npwp_16 nt conf
          ts ai).alamat =
        alamat.map (fun s => if s = "" then s else pyStrip s) ∧
      (mkDocumentData dt nama alamat nik npwp_15 npwp_16 nt conf
          ts ai).document_type = dt ∧
      (mkDocumentData dt nama alamat nik npwp_15 npwp_16 nt conf
          ts ai).npwp_type = nt) ∧
    recordInvariant (mkDocumentData .KTP "Budi" none
      (some "3201010101900001") none none none none 0 none) = true ∧
    fieldValidatorPasses "nik" "3201.0101.0190.0001" 2026 = true ∧
    recordInvariant (setAttr (mkDocumentData .KTP "Budi" none
      (some "3201010101900001") none none none none 0 none)
      "nik" "3201.0101.0190.0001") = false := by
  refine ⟨⟨?_, ?_, ?_, rfl, ?_, rfl, rfl⟩, by decide, by decide, by decide⟩
  · cases nik with
    | none => rfl
    | some s =>
      by_cases h : s = "" <;>
        simp [mkDocumentData, pyCleanOptNumber, cleanNumber, h]
  · cases npwp_15 with
    | none => rfl
    | some s =>
      by_cases h : s = "" <;>
        simp [mkDocumentData, pyCleanOptNumber, cleanNumber, h]
  · cases npwp_16 with
    | none => rfl
    | some s =>
      by_cases h : s = "" <;>
        simp [mkDocumentData, pyCleanOptNumber, cleanNumber, h]
  · cases alamat with
    | none => rfl
    | some s =>
      by_cases h : s = "" <;>
        simp [mkDocumentData, pyCleanOptText, h]

end NpwpBot
